import Mathlib

/-!
Shallow embedding of the AI-underwriting front-end (src/chat_app.py, the
guided-chat variant, and src/app.py, the form variant).

The remote HTTP services are modelled as environment-supplied outcomes:
an outbound call is a pure function of its arguments and of the abstract
response the environment hands back.  Python `None` is `Option.none`,
Python tuples are products, Python dicts/JSON values are the `Json`
inductive below, and the Streamlit session state is the `Session`
structure threaded explicitly through a `step` function.
-/

namespace Underwriting

/-- A JSON value, as decoded by `json.loads` / `response.json()`. -/
inductive Json where
  | null : Json
  | bool (b : Bool) : Json
  | num (n : Int) : Json
  | str (s : String) : Json
  | arr (xs : List Json) : Json
  | obj (fields : List (String × Json)) : Json
deriving Repr, BEq

/-- Python dict access `j[k]`: `KeyError` / `TypeError` become `.error`
with a short description of the raised exception. -/
def Json.getField : Json → String → Except String Json
  | .obj fs, k =>
      match fs.find? (fun p => p.1 == k) with
      | some p => .ok p.2
      | none => .error ("KeyError: " ++ k)
  | _, k => .error ("TypeError: value has no key " ++ k)

/-- Python list indexing `j[i]`: `IndexError` / `TypeError` become `.error`. -/
def Json.getIndex : Json → Nat → Except String Json
  | .arr xs, i =>
      match xs.get? i with
      | some v => .ok v
      | none => .error "IndexError: list index out of range"
  | _, _ => .error "TypeError: value is not a list"

/-- Python equality test `v == True` (`True == 1` holds in Python). -/
def Json.pyEqTrue : Json → Bool
  | .bool b => b
  | .num n => n == 1
  | _ => false

/-- Python equality test `v == False` (`False == 0` holds in Python). -/
def Json.pyEqFalse : Json → Bool
  | .bool b => !b
  | .num n => n == 0
  | _ => false

/-- Python truthiness `bool(v)` of a decoded JSON value. -/
def Json.truthy : Json → Bool
  | .null => false
  | .bool b => b
  | .num n => n != 0
  | .str s => s != ""
  | .arr xs => !xs.isEmpty
  | .obj fs => !fs.isEmpty

/-- An HTTP response as seen by the caller of `requests.post`:
its status code, its raw text, and the result of JSON-decoding that
text (`.error` models a `json.JSONDecodeError` with its message). -/
structure HttpResp where
  status : Nat
  text : String
  body : Except String Json
deriving Repr

/-- Outcome of a `requests.post` call: either the post itself raised
(timeout, connection error, ... — description is `str(e)`), or a
response came back. -/
inductive PostOutcome where
  | exc (desc : String) : PostOutcome
  | resp (r : HttpResp) : PostOutcome
deriving Repr

/-- `response.raise_for_status()` raises `requests.exceptions.HTTPError`
exactly for 4xx and 5xx status codes. -/
def raisesForStatus (status : Nat) : Bool :=
  400 ≤ status && status < 600

-- ====================
-- chat_app.py : upload_file
-- ====================

/-- The outbound request built by `upload_file` in chat_app.py:
endpoint URL and the single query parameter (name, value).  `base` is
the `API_BASE` environment value.  `none` models the early
`return False, "Invalid API type specified."` path where no request is
built. -/
def chat_upload_request (base doc_type api_type : String) :
    Option (String × String × String) :=
  if api_type = "personal" then
    some (base ++ "/upload_personal_documents", "document_type", doc_type)
  else if api_type = "bank" then
    some (base ++ "/upload_bank_documents", "application_type", doc_type)
  else
    none

/-- `upload_file(file, doc_type, api_type)` of chat_app.py, as a function
of the outcome of the `requests.post` call.  Returns `some (success, msg)`
for every `return` statement of the Python function; on the success path
the Python code returns the decoded `success` field itself as the second
component, so the message is a `Json` value.  Returns `none` when the
Python function falls off its end (decoded `success` field equal to
neither `True` nor `False`), i.e. Python returns `None`. -/
def upload_file (doc_type api_type : String) (outcome : PostOutcome) :
    Option (Bool × Json) :=
  if api_type = "personal" ∨ api_type = "bank" then
    match outcome with
    | .exc desc => some (false, .str ("An unexpected error occurred: " ++ desc))
    | .resp r =>
        if raisesForStatus r.status then
          some (false, .str ("HTTP Error: " ++ toString r.status ++
            " Error. Response: " ++ r.text))
        else
          match r.body with
          | .error desc =>
              some (false, .str ("An unexpected error occurred: " ++ desc))
          | .ok j =>
              match j.getField "success" with
              | .error desc =>
                  some (false, .str ("An unexpected error occurred: " ++ desc))
              | .ok v =>
                  if v.pyEqTrue then some (true, v)
                  else if v.pyEqFalse then
                    some (false, .str "Incorrect file type provided")
                  else none
  else
    some (false, .str "Invalid API type specified.")

-- ====================
-- chat_app.py : run_final_analysis
-- ====================

/-- The nested extraction
`data['outputs'][0]['outputs'][0]['results']['message']['data']['text']`
performed on the decoded analysis/chat response.  A missing key, a wrong
shape, or a non-string leaf is an `.error` (in Python the first two raise
and are caught by the surrounding handler; a non-string leaf would be
returned as-is, a case the transcript model folds into the error path
since transcript contents are strings). -/
def extractMessageText (data : Json) : Except String String := do
  let a ← data.getField "outputs"
  let b ← a.getIndex 0
  let c ← b.getField "outputs"
  let d ← c.getIndex 0
  let e ← d.getField "results"
  let f ← e.getField "message"
  let g ← f.getField "data"
  let h ← g.getField "text"
  match h with
  | .str t => pure t
  | _ => .error "TypeError: message text is not a string"

/-- `run_final_analysis()` of chat_app.py as a function of the outcome of
its POST: `raise_for_status`, `response.json()` and the nested extraction
all happen inside one `try`, and any exception is mapped to the fallback
string. -/
def run_final_analysis (outcome : PostOutcome) : String :=
  let fallback := fun desc =>
    "❌ An error occurred during the final analysis: " ++ desc
  match outcome with
  | .exc desc => fallback desc
  | .resp r =>
      if raisesForStatus r.status then
        fallback ("HTTP Error: " ++ toString r.status ++ " Error")
      else
        match r.body with
        | .error desc => fallback desc
        | .ok data =>
            match extractMessageText data with
            | .ok t => t
            | .error desc => fallback desc

-- ====================
-- chat_app.py : get_chatbot_response
-- ====================

/-- The JSON payload built by `get_chatbot_response(user_prompt)`:
`{"input_value": user_prompt, "output_type": "chat", "input_type": "chat"}`. -/
structure ChatPayload where
  input_value : String
  output_type : String
  input_type : String
deriving Repr, DecidableEq

def get_chatbot_payload (user_prompt : String) : ChatPayload :=
  ⟨user_prompt, "chat", "chat"⟩

/-- `get_chatbot_response(user_prompt)` as a function of the POST outcome. -/
def get_chatbot_response (outcome : PostOutcome) : String :=
  match outcome with
  | .exc desc => "❌ **API Error:** Could not get a response. " ++ desc
  | .resp r =>
      if raisesForStatus r.status then
        "❌ **API Error:** Could not get a response. HTTP Error: " ++
          toString r.status ++ " Error"
      else
        match r.body with
        | .error desc => "❌ **API Error:** Could not get a response. " ++ desc
        | .ok data =>
            match extractMessageText data with
            | .ok t => t
            | .error _ =>
                "❌ **Parsing Error:** The API response format was unexpected."

-- ====================
-- chat_app.py : session state and the document-intake state machine
-- ====================

/-- One transcript entry `{"role": ..., "content": ...}`. -/
structure Msg where
  role : String
  content : String
deriving Repr, DecidableEq

/-- The document collection order, `DOC_ORDER` in chat_app.py. -/
def DOC_ORDER : List String :=
  ["driving_license", "ssn", "bank_application", "bank_statement"]

/-- One entry of the `DOC_INFO` dict. -/
structure DocInfo where
  prompt : String
  api_type : String
  next_stage : String
deriving Repr, DecidableEq

/-- The `DOC_INFO` dict of chat_app.py; `none` models `stage not in DOC_INFO`. -/
def DOC_INFO (stage : String) : Option DocInfo :=
  if stage = "driving_license" then
    some ⟨"To start, please upload a copy of your **Driving License**.",
          "personal", "ssn"⟩
  else if stage = "ssn" then
    some ⟨"Great. Now, please upload a document with your **Social Security Number**.",
          "personal", "bank_application"⟩
  else if stage = "bank_application" then
    some ⟨"Thank you. Next, please upload the completed **Bank Application** form.",
          "bank", "bank_statement"⟩
  else if stage = "bank_statement" then
    some ⟨"Almost done. Finally, please upload your latest **Bank Statement**.",
          "bank", "analysis_pending"⟩
  else
    none

/-- The Streamlit session state used by chat_app.py, as initialized by
`init_session_state()`. -/
structure Session where
  app_started : Bool
  messages : List Msg
  doc_upload_stage : String
  upload_retries : Nat
deriving Repr, DecidableEq

/-- `init_session_state()` on a fresh (or just-cleared) session. -/
def initSession : Session :=
  { app_started := false
    messages := []
    doc_upload_stage := "driving_license"
    upload_retries := 0 }

/-- A user-visible interaction with the app, together with the abstract
outcome of any remote call it triggers (the environment's half of the
interaction). -/
inductive Event where
  /-- Pressing the "Let's begin the analysis" button. -/
  | begin : Event
  /-- Pressing the sidebar "Start Over" button: every session-state key is
  deleted and `init_session_state()` re-creates them on the rerun. -/
  | reset : Event
  /-- Dropping a file in the uploader while at a document stage;
  `success`/`msg` is the pair returned by `upload_file`. -/
  | upload (fname : String) (success : Bool) (msg : String) : Event
  /-- The automatic rerender at the `analysis_pending` stage; `outcome` is
  the result of the POST made by `run_final_analysis`. -/
  | analysis (outcome : PostOutcome) : Event
  /-- Submitting a chat prompt at the `chat_active` stage; `response` is
  the string returned by `get_chatbot_response`. -/
  | chat (prompt response : String) : Event

/-- One rerun of the chat_app.py script in response to one event.
The script dispatches on `if not st.session_state.app_started ... else ...`
and then on the stage; an event belonging to the other branch of that
dispatch (a widget that is not rendered) leaves the state unchanged, so
the dispatch is written per event here. -/
def step (s : Session) (e : Event) : Session :=
  match e with
  | .begin =>
      if s.app_started = false then
        match DOC_INFO s.doc_upload_stage with
        | some info =>
            { s with
              app_started := true
              messages :=
                [⟨"assistant",
                  "I am a loan underwriting agent. I will guide you through the process of submitting your documents for analysis."⟩,
                 ⟨"assistant", info.prompt⟩] }
        | none => s
      else s
  | .reset =>
      if s.app_started = false then s else initSession
  | .upload fname success msg =>
      if s.app_started = false then s
      else
        match DOC_INFO s.doc_upload_stage with
        | some info =>
            if success then
              let s1 : Session :=
                { s with
                  messages := s.messages ++
                    [⟨"user", "Uploaded `" ++ fname ++ "`"⟩]
                  doc_upload_stage := info.next_stage }
              match DOC_INFO s1.doc_upload_stage with
              | some info2 =>
                  { s1 with messages := s1.messages ++ [⟨"assistant", info2.prompt⟩] }
              | none =>
                  { s1 with messages := s1.messages ++
                      [⟨"assistant",
                        "All documents received. I will now begin the final analysis. Please wait a moment."⟩] }
            else
              { s with
                messages := s.messages ++
                  [⟨"assistant",
                    "There was an error with your upload: " ++ msg ++ ". Please try again."⟩]
                upload_retries := s.upload_retries + 1 }
        | none => s
  | .analysis outcome =>
      if s.app_started = false then s
      else if s.doc_upload_stage = "analysis_pending" then
        { s with
          messages := s.messages ++
            [⟨"assistant", run_final_analysis outcome⟩,
             ⟨"assistant",
              "The initial analysis is complete. You can now ask me any questions you have."⟩]
          doc_upload_stage := "chat_active" }
      else s
  | .chat prompt response =>
      if s.app_started = false then s
      else if s.doc_upload_stage = "chat_active" then
        { s with
          messages := s.messages ++
            [⟨"user", prompt⟩, ⟨"assistant", response⟩] }
      else s

/-- Run a sequence of events from a state. -/
def run (s : Session) : List Event → Session
  | [] => s
  | e :: es => run (step s e) es

/-- Number of successful upload events in an event list. -/
def succUploads : List Event → Nat
  | [] => 0
  | .upload _ true _ :: es => succUploads es + 1
  | _ :: es => succUploads es

/-- The chat-branch call site `get_chatbot_response(prompt)` builds its
outbound payload from the submitted prompt only; the session (in
particular its transcript) is in scope but not consulted. -/
def outbound_chat_request (_s : Session) (prompt : String) : ChatPayload :=
  get_chatbot_payload prompt

-- ====================
-- app.py (form variant) : per-document slots and reset
-- ====================

/-- The three session keys kept per document by app.py:
`{dtype}_status`, `{dtype}_msg`, `{dtype}_filename`. -/
structure SlotState where
  status : String
  msg : String
  filename : String
deriving Repr, DecidableEq

/-- Session-init value of a slot in app.py. -/
def initSlot : SlotState :=
  { status := "Not Uploaded", msg := "", filename := "" }

/-- The session state of app.py: one slot per entry of `all_docs`
(values `driving_license`, `ssn`, `application`, `statement`) plus the
final-analysis bookkeeping. -/
structure AppState where
  driving_license : SlotState
  ssn : SlotState
  bank_appl : SlotState
  bank_stmt : SlotState
  final_status : String
  final_result : String
deriving Repr, DecidableEq

/-- app.py session initialization. -/
def initAppState : AppState :=
  { driving_license := initSlot
    ssn := initSlot
    bank_appl := initSlot
    bank_stmt := initSlot
    final_status := "not_clicked"
    final_result := "" }

/-- "🔄 Start New Application" in app.py: every session-state key is
deleted and the rerun re-initializes them all. -/
def app_reset (_s : AppState) : AppState := initAppState

/-- The outbound request built by `upload_file` in app.py: endpoint URL
and the single query parameter (name, value); `none` models the early
`return False, "Invalid document type"` path. -/
def app_upload_request (base dtype : String) :
    Option (String × String × String) :=
  if dtype = "driving_license" ∨ dtype = "ssn" then
    some (base ++ "/upload_personal_documents", "document_type", dtype)
  else if dtype = "application" ∨ dtype = "statement" then
    some (base ++ "/upload_bank_documents", "application_type", dtype)
  else
    none

-- ====================
-- Concrete states and traces used by witnesses and counterexamples
-- ====================

/-- The session right after pressing "Let's begin the analysis". -/
def startedSession : Session := step initSession .begin

/-- The §8 test scenario: driving_license success, ssn failure, ssn
success, bank_application success, bank_statement success. -/
def scenarioEvents : List Event :=
  [.upload "license.pdf" true "",
   .upload "ssn.txt" false "Incorrect file type provided",
   .upload "ssn.pdf" true "",
   .upload "application.pdf" true "",
   .upload "statement.pdf" true ""]

/-- The session sitting at the `analysis_pending` stage, reached by the
§8 scenario. -/
def analysisSession : Session := run initSession (Event.begin :: scenarioEvents)

/-- A 200 response whose text does not decode as JSON. -/
def badJsonResp : HttpResp :=
  { status := 200
    text := "<html>oops</html>"
    body := .error "Expecting value: line 1 column 1 (char 0)" }

/-- A 200 response whose JSON `success` field is the truthy non-boolean
string `"yes"`. -/
def truthyStrResp : HttpResp :=
  { status := 200
    text := "\x7b\"success\": \"yes\"\x7d"
    body := .ok (.obj [("success", .str "yes")]) }

/-- A 200 response whose JSON `success` field is the boolean `true`. -/
def okTrueResp : HttpResp :=
  { status := 200
    text := "\x7b\"success\": true\x7d"
    body := .ok (.obj [("success", .bool true)]) }

/-- A 200 response whose JSON `success` field is the boolean `false`. -/
def okFalseResp : HttpResp :=
  { status := 200
    text := "\x7b\"success\": false\x7d"
    body := .ok (.obj [("success", .bool false)]) }

-- ====================
-- Helper notions for the progression invariants
-- ====================

/-- How many successful uploads are needed before a stage can be current:
position of a document stage in `DOC_ORDER`, and 4 for both
post-document stages. -/
def docsNeeded (stage : String) : Nat :=
  if stage = "driving_license" then 0
  else if stage = "ssn" then 1
  else if stage = "bank_application" then 2
  else if stage = "bank_statement" then 3
  else if stage = "analysis_pending" then 4
  else if stage = "chat_active" then 4
  else 0

/-- The unique stage following a given stage in the fixed progression
`driving_license → ssn → bank_application → bank_statement →
analysis_pending → chat_active`. -/
def stage_successor (stage : String) : Option String :=
  match DOC_INFO stage with
  | some info => some info.next_stage
  | none => if stage = "analysis_pending" then some "chat_active" else none

theorem DOC_INFO_next_docsNeeded (stage : String) (info : DocInfo)
    (h : DOC_INFO stage = some info) :
    docsNeeded info.next_stage ≤ docsNeeded stage + 1 := by
  unfold DOC_INFO at h
  split_ifs at h with h1 h2 h3 h4 <;>
    first
      | (injection h with h; subst h; subst_vars; decide)
      | (exact absurd h (by simp))

/-- The stage reached by one successful upload at a document stage. -/
theorem step_upload_success_stage (s : Session) (fname msg : String)
    (info : DocInfo)
    (hb : s.app_started = true)
    (hi : DOC_INFO s.doc_upload_stage = some info) :
    (step s (.upload fname true msg)).doc_upload_stage = info.next_stage := by
  simp only [step, hb]
  simp only [hi]
  cases hj : DOC_INFO info.next_stage <;> simp [hj]

/-- One step can raise `docsNeeded` by at most the number of successful
uploads it contains. -/
theorem docsNeeded_step (s : Session) (e : Event) :
    docsNeeded (step s e).doc_upload_stage ≤
      docsNeeded s.doc_upload_stage + succUploads [e] := by
  cases hb : s.app_started with
  | false =>
      cases e with
      | begin =>
          cases hi : DOC_INFO s.doc_upload_stage <;>
            simp [step, hb, hi, succUploads]
      | reset => simp [step, hb, succUploads]
      | upload f su m => simp [step, hb, succUploads, Nat.le_add_right]
      | analysis o => simp [step, hb, succUploads]
      | chat p r => simp [step, hb, succUploads]
  | true =>
      cases e with
      | begin => simp [step, hb, succUploads]
      | reset => simp [step, hb, succUploads, initSession, docsNeeded]
      | upload f su m =>
          cases hi : DOC_INFO s.doc_upload_stage with
          | none => simp [step, hb, hi, succUploads, Nat.le_add_right]
          | some info =>
              cases su with
              | false => simp [step, hb, hi, succUploads]
              | true =>
                  have hs := step_upload_success_stage s f m info hb hi
                  rw [hs]
                  have := DOC_INFO_next_docsNeeded s.doc_upload_stage info hi
                  simpa [succUploads] using this
      | analysis o =>
          by_cases hp : s.doc_upload_stage = "analysis_pending"
          · have : (step s (.analysis o)).doc_upload_stage = "chat_active" := by
              simp [step, hb, hp]
            rw [this, hp]
            simp [succUploads, docsNeeded]
          · simp [step, hb, hp, succUploads]
      | chat p r =>
          by_cases hp : s.doc_upload_stage = "chat_active" <;>
            simp [step, hb, hp, succUploads]

theorem succUploads_cons (e : Event) (es : List Event) :
    succUploads (e :: es) = succUploads [e] + succUploads es := by
  cases e with
  | upload f su m => cases su <;> simp [succUploads] <;> omega
  | begin => simp [succUploads]
  | reset => simp [succUploads]
  | analysis o => simp [succUploads]
  | chat p r => simp [succUploads]

/-- A whole run can raise `docsNeeded` by at most the number of
successful uploads it contains. -/
theorem docsNeeded_run (es : List Event) :
    ∀ s : Session,
      docsNeeded (run s es).doc_upload_stage ≤
        docsNeeded s.doc_upload_stage + succUploads es := by
  induction es with
  | nil => intro s; simp [run, succUploads]
  | cons e es ih =>
      intro s
      have h1 := ih (step s e)
      have h2 := docsNeeded_step s e
      have h3 : run s (e :: es) = run (step s e) es := rfl
      rw [h3, succUploads_cons]
      omega

-- ====================
-- Claims
-- ====================

/-- C1: a successful upload at each document stage advances the stage
pointer to exactly the `next_stage` recorded for that document; the
recorded successors realize the fixed order driving_license → ssn →
bank_application → bank_statement → analysis_pending; and any run from
the initial session that reaches `analysis_pending` contains at least
four successful uploads, so the stage is never reached earlier. -/
theorem C1_stage_progression :
    (∀ (s : Session) (fname msg : String) (info : DocInfo),
        s.app_started = true →
        DOC_INFO s.doc_upload_stage = some info →
        (step s (.upload fname true msg)).doc_upload_stage = info.next_stage) ∧
    ((DOC_INFO "driving_license").map DocInfo.next_stage = some "ssn" ∧
     (DOC_INFO "ssn").map DocInfo.next_stage = some "bank_application" ∧
     (DOC_INFO "bank_application").map DocInfo.next_stage = some "bank_statement" ∧
     (DOC_INFO "bank_statement").map DocInfo.next_stage = some "analysis_pending") ∧
    (∀ es : List Event,
        (run initSession es).doc_upload_stage = "analysis_pending" →
        4 ≤ succUploads es) := by
  refine ⟨step_upload_success_stage, by decide, ?_⟩
  intro es h
  have hle := docsNeeded_run es initSession
  rw [h] at hle
  simp [initSession, docsNeeded] at hle
  omega

/-- C1 witness: the first upload advances driving_license to ssn, and the
begin-then-four-successes trace that reaches analysis_pending contains
four successful uploads. -/
theorem C1_stage_progression_witness :
    startedSession.app_started = true ∧
    DOC_INFO startedSession.doc_upload_stage =
      some ⟨"To start, please upload a copy of your **Driving License**.",
            "personal", "ssn"⟩ ∧
    (step startedSession (.upload "license.pdf" true "")).doc_upload_stage = "ssn" ∧
    (run initSession (Event.begin :: scenarioEvents)).doc_upload_stage =
      "analysis_pending" ∧
    4 ≤ succUploads (Event.begin :: scenarioEvents) :=
  ⟨rfl, rfl,
   C1_stage_progression.1 startedSession "license.pdf" "" _ rfl rfl,
   rfl,
   C1_stage_progression.2.2 (Event.begin :: scenarioEvents) rfl⟩

/-- C2: at any document stage, a failed upload leaves the stage pointer
unchanged, increments the retry counter by exactly 1, and appends one
assistant-role error entry describing the failure. -/
theorem C2_failed_upload_bookkeeping (s : Session) (fname msg : String)
    (hs : s.app_started = true)
    (hd : (DOC_INFO s.doc_upload_stage).isSome = true) :
    (step s (.upload fname false msg)).doc_upload_stage = s.doc_upload_stage ∧
    (step s (.upload fname false msg)).upload_retries = s.upload_retries + 1 ∧
    (step s (.upload fname false msg)).messages = s.messages ++
      [⟨"assistant",
        "There was an error with your upload: " ++ msg ++ ". Please try again."⟩] := by
  cases h : DOC_INFO s.doc_upload_stage with
  | none => rw [h] at hd; simp at hd
  | some info => refine ⟨?_, ?_, ?_⟩ <;> simp [step, hs, h]

/-- C2 witness: a failed upload at the driving_license stage. -/
theorem C2_failed_upload_bookkeeping_witness :
    startedSession.app_started = true ∧
    (DOC_INFO startedSession.doc_upload_stage).isSome = true ∧
    ((step startedSession (.upload "f.pdf" false "bad")).doc_upload_stage =
        startedSession.doc_upload_stage ∧
     (step startedSession (.upload "f.pdf" false "bad")).upload_retries =
        startedSession.upload_retries + 1 ∧
     (step startedSession (.upload "f.pdf" false "bad")).messages =
        startedSession.messages ++
          [⟨"assistant",
            "There was an error with your upload: " ++ "bad" ++ ". Please try again."⟩]) :=
  ⟨rfl, rfl, C2_failed_upload_bookkeeping startedSession "f.pdf" "bad" rfl rfl⟩

/-- C3: at the analysis_pending stage the rerender invokes the
final-analysis operation once, appends its result to the transcript and
unconditionally moves the stage to chat_active; at any other stage the
analysis rerender does nothing (so the operation is invoked exactly once
per entry into analysis_pending); a well-formed response places the
extracted text in the result, and a malformed JSON response yields the
fallback diagnostic string while the stage still becomes chat_active. -/
theorem C3_analysis_transition :
    (∀ (s : Session) (outcome : PostOutcome),
        s.app_started = true →
        s.doc_upload_stage = "analysis_pending" →
        (step s (.analysis outcome)).doc_upload_stage = "chat_active" ∧
        (step s (.analysis outcome)).messages = s.messages ++
          [⟨"assistant", run_final_analysis outcome⟩,
           ⟨"assistant",
            "The initial analysis is complete. You can now ask me any questions you have."⟩]) ∧
    (∀ (s : Session) (outcome : PostOutcome),
        s.doc_upload_stage ≠ "analysis_pending" →
        step s (.analysis outcome) = s) ∧
    (∀ (r : HttpResp) (j : Json) (t : String),
        raisesForStatus r.status = false →
        r.body = .ok j →
        extractMessageText j = .ok t →
        run_final_analysis (.resp r) = t) ∧
    (∀ (r : HttpResp) (desc : String),
        raisesForStatus r.status = false →
        r.body = .error desc →
        run_final_analysis (.resp r) =
          "❌ An error occurred during the final analysis: " ++ desc) := by
  refine ⟨?_, ?_, ?_, ?_⟩
  · intro s o hs hp
    exact ⟨by simp [step, hs, hp], by simp [step, hs, hp]⟩
  · intro s o hp
    cases hb : s.app_started <;> simp [step, hb, hp]
  · intro r j t h1 h2 h3
    simp [run_final_analysis, h1, h2, h3]
  · intro r desc h1 h2
    simp [run_final_analysis, h1, h2]

/-- C3 witness: a malformed JSON analysis response at the
analysis_pending stage still moves the session to chat_active, with the
fallback diagnostic in the transcript. -/
theorem C3_analysis_transition_witness :
    analysisSession.app_started = true ∧
    analysisSession.doc_upload_stage = "analysis_pending" ∧
    ((step analysisSession (.analysis (.resp badJsonResp))).doc_upload_stage =
        "chat_active" ∧
     (step analysisSession (.analysis (.resp badJsonResp))).messages =
        analysisSession.messages ++
          [⟨"assistant", run_final_analysis (.resp badJsonResp)⟩,
           ⟨"assistant",
            "The initial analysis is complete. You can now ask me any questions you have."⟩]) ∧
    raisesForStatus badJsonResp.status = false ∧
    run_final_analysis (.resp badJsonResp) =
      "❌ An error occurred during the final analysis: " ++
        "Expecting value: line 1 column 1 (char 0)" :=
  ⟨rfl, rfl,
   C3_analysis_transition.1 analysisSession (.resp badJsonResp) rfl rfl,
   rfl,
   C3_analysis_transition.2.2.2 badJsonResp
     "Expecting value: line 1 column 1 (char 0)" rfl rfl⟩

/-- C4 counterexample: a 200 response whose `success` field is the
truthy string "yes" makes `upload_file` return `None` — neither a
success pair nor a failure pair with a descriptive message, contradicting
the claimed uniform (success, message) contract. -/
theorem C4_counterexample :
    upload_file "driving_license" "personal" (.resp truthyStrResp) = none := by
  rfl

/-- C4 (amended): `upload_file` returns a (success, message) pair in
every case except one: when the response passes `raise_for_status`
(status not in 400..599) and its JSON `success` field equals neither
`True` nor `False`, it returns `None`.  Success is returned exactly when
the status passes `raise_for_status` and the field equals `True` (the
message then being that decoded field value rather than a string); a
transport exception, a 4xx/5xx status, a JSON decode failure, a missing
or inaccessible `success` field, a field equal to `False`, and an
invalid api_type all yield a failure pair with a descriptive message. -/
theorem C4_upload_contract :
    (∀ (dt api desc : String), api = "personal" ∨ api = "bank" →
        upload_file dt api (.exc desc) =
          some (false, .str ("An unexpected error occurred: " ++ desc))) ∧
    (∀ (dt api : String) (r : HttpResp), api = "personal" ∨ api = "bank" →
        raisesForStatus r.status = true →
        upload_file dt api (.resp r) =
          some (false, .str ("HTTP Error: " ++ toString r.status ++
            " Error. Response: " ++ r.text))) ∧
    (∀ (dt api desc : String) (r : HttpResp), api = "personal" ∨ api = "bank" →
        raisesForStatus r.status = false →
        r.body = .error desc →
        upload_file dt api (.resp r) =
          some (false, .str ("An unexpected error occurred: " ++ desc))) ∧
    (∀ (dt api desc : String) (r : HttpResp) (j : Json),
        api = "personal" ∨ api = "bank" →
        raisesForStatus r.status = false →
        r.body = .ok j →
        j.getField "success" = .error desc →
        upload_file dt api (.resp r) =
          some (false, .str ("An unexpected error occurred: " ++ desc))) ∧
    (∀ (dt api : String) (r : HttpResp) (j v : Json),
        api = "personal" ∨ api = "bank" →
        raisesForStatus r.status = false →
        r.body = .ok j →
        j.getField "success" = .ok v →
        v.pyEqTrue = true →
        upload_file dt api (.resp r) = some (true, v)) ∧
    (∀ (dt api : String) (r : HttpResp) (j v : Json),
        api = "personal" ∨ api = "bank" →
        raisesForStatus r.status = false →
        r.body = .ok j →
        j.getField "success" = .ok v →
        v.pyEqFalse = true →
        upload_file dt api (.resp r) =
          some (false, .str "Incorrect file type provided")) ∧
    (∀ (dt api : String) (r : HttpResp) (j v : Json),
        api = "personal" ∨ api = "bank" →
        raisesForStatus r.status = false →
        r.body = .ok j →
        j.getField "success" = .ok v →
        v.pyEqTrue = false →
        v.pyEqFalse = false →
        upload_file dt api (.resp r) = none) ∧
    (∀ (dt api : String) (outcome : PostOutcome),
        api ≠ "personal" → api ≠ "bank" →
        upload_file dt api outcome =
          some (false, .str "Invalid API type specified.")) := by
  refine ⟨?_, ?_, ?_, ?_, ?_, ?_, ?_, ?_⟩
  · intro dt api desc hapi
    simp [upload_file, hapi]
  · intro dt api r hapi hst
    simp [upload_file, hapi, hst]
  · intro dt api desc r hapi hst hb
    simp [upload_file, hapi, hst, hb]
  · intro dt api desc r j hapi hst hb hf
    simp [upload_file, hapi, hst, hb, hf]
  · intro dt api r j v hapi hst hb hf hv
    simp [upload_file, hapi, hst, hb, hf, hv]
  · intro dt api r j v hapi hst hb hf hvT
    have hvF : v.pyEqTrue = false := by
      cases v <;> simp_all [Json.pyEqTrue, Json.pyEqFalse] <;> omega
    simp [upload_file, hapi, hst, hb, hf, hvF, hvT]
  · intro dt api r j v hapi hst hb hf hvT hvF
    simp [upload_file, hapi, hst, hb, hf, hvT, hvF]
  · intro dt api outcome h1 h2
    have : ¬(api = "personal" ∨ api = "bank") := by
      intro h; cases h <;> simp_all
    simp [upload_file, this]

/-- C4 witness: the contract evaluated on a success-True response and on
a transport exception. -/
theorem C4_upload_contract_witness :
    ("personal" = "personal" ∨ "personal" = "bank") ∧
    raisesForStatus okTrueResp.status = false ∧
    okTrueResp.body = .ok (.obj [("success", .bool true)]) ∧
    (Json.obj [("success", .bool true)]).getField "success" = .ok (.bool true) ∧
    (Json.bool true).pyEqTrue = true ∧
    upload_file "ssn" "personal" (.resp okTrueResp) = some (true, .bool true) ∧
    upload_file "ssn" "bank" (.exc "timed out") =
      some (false, .str ("An unexpected error occurred: " ++ "timed out")) :=
  ⟨Or.inl rfl, rfl, rfl, rfl, rfl,
   C4_upload_contract.2.2.2.2.1 "ssn" "personal" okTrueResp
     (.obj [("success", .bool true)]) (.bool true) (Or.inl rfl) rfl rfl rfl rfl,
   C4_upload_contract.1 "ssn" "bank" "timed out" (Or.inr rfl)⟩

/-- C5 counterexample: the §8 scenario (driving_license success, ssn
failure, ssn success, bank_application success, bank_statement success)
does end at analysis_pending with retry counter 1, but the transcript
then holds 11 entries, not the claimed 9. -/
theorem C5_counterexample :
    (run startedSession scenarioEvents).doc_upload_stage = "analysis_pending" ∧
    (run startedSession scenarioEvents).upload_retries = 1 ∧
    ¬((run startedSession scenarioEvents).messages.length = 9) := by
  decide

/-- C5 (amended): the scenario ends with stage analysis_pending, retry
counter 1, and transcript length 11 (2 start messages, 4 user upload
confirmations, 1 error note, 3 follow-up document prompts, 1
all-documents-received note). -/
theorem C5_scenario :
    (run startedSession scenarioEvents).doc_upload_stage = "analysis_pending" ∧
    (run startedSession scenarioEvents).upload_retries = 1 ∧
    (run startedSession scenarioEvents).messages.length = 11 := by
  decide

/-- C6: no event other than the full reset ever moves the stage pointer
backward: a step either leaves the stage pointer unchanged or moves it to
the unique successor stage in the fixed forward order. -/
theorem C6_forward_only (s : Session) (e : Event) (he : e ≠ Event.reset) :
    (step s e).doc_upload_stage = s.doc_upload_stage ∨
    stage_successor s.doc_upload_stage = some (step s e).doc_upload_stage := by
  cases e with
  | begin =>
      left
      cases hb : s.app_started with
      | false => cases hi : DOC_INFO s.doc_upload_stage <;> simp [step, hb, hi]
      | true => simp [step, hb]
  | reset => exact absurd rfl he
  | upload f su m =>
      cases hb : s.app_started with
      | false => left; simp [step, hb]
      | true =>
          cases hi : DOC_INFO s.doc_upload_stage with
          | none => left; simp [step, hb, hi]
          | some info =>
              cases su with
              | false => left; simp [step, hb, hi]
              | true =>
                  right
                  rw [step_upload_success_stage s f m info hb hi]
                  simp [stage_successor, hi]
  | analysis o =>
      cases hb : s.app_started with
      | false => left; simp [step, hb]
      | true =>
          by_cases hp : s.doc_upload_stage = "analysis_pending"
          · right
            have h1 : (step s (.analysis o)).doc_upload_stage = "chat_active" := by
              simp [step, hb, hp]
            rw [h1, hp]
            decide
          · left; simp [step, hb, hp]
  | chat p r =>
      left
      cases hb : s.app_started with
      | false => simp [step, hb]
      | true => by_cases hp : s.doc_upload_stage = "chat_active" <;> simp [step, hb, hp]

/-- C6 witness: a successful upload at the driving_license stage moves
the stage pointer to the successor. -/
theorem C6_forward_only_witness :
    (Event.upload "a.pdf" true "" ≠ Event.reset) ∧
    ((step startedSession (.upload "a.pdf" true "")).doc_upload_stage =
        startedSession.doc_upload_stage ∨
     stage_successor startedSession.doc_upload_stage =
        some (step startedSession (.upload "a.pdf" true "")).doc_upload_stage) :=
  ⟨fun h => Event.noConfusion h,
   C6_forward_only startedSession (.upload "a.pdf" true "")
     (fun h => Event.noConfusion h)⟩

/-- C7: routing of the upload request.  The form variant (app.py)
conforms: personal subtypes go to the personal endpoint with
document_type in \x7bdriving_license, ssn\x7d and bank subtypes to the
bank endpoint with application_type in \x7bapplication, statement\x7d.
The chat variant (chat_app.py), however, passes the stage name itself as
the parameter value, so at the two bank stages it sends
application_type=bank_application / bank_statement — values outside the
claimed (and backend-declared) set \x7bapplication, statement\x7d. -/
theorem C7_routing_evaluation :
    ((DOC_INFO "bank_application").map DocInfo.api_type = some "bank") ∧
    ((DOC_INFO "bank_statement").map DocInfo.api_type = some "bank") ∧
    chat_upload_request "B" "bank_application" "bank" =
      some ("B/upload_bank_documents", "application_type", "bank_application") ∧
    chat_upload_request "B" "bank_statement" "bank" =
      some ("B/upload_bank_documents", "application_type", "bank_statement") ∧
    ("bank_application" ≠ "application" ∧ "bank_application" ≠ "statement" ∧
     "bank_statement" ≠ "application" ∧ "bank_statement" ≠ "statement") ∧
    chat_upload_request "B" "driving_license" "personal" =
      some ("B/upload_personal_documents", "document_type", "driving_license") ∧
    chat_upload_request "B" "ssn" "personal" =
      some ("B/upload_personal_documents", "document_type", "ssn") ∧
    app_upload_request "B" "application" =
      some ("B/upload_bank_documents", "application_type", "application") ∧
    app_upload_request "B" "statement" =
      some ("B/upload_bank_documents", "application_type", "statement") ∧
    app_upload_request "B" "driving_license" =
      some ("B/upload_personal_documents", "document_type", "driving_license") ∧
    app_upload_request "B" "ssn" =
      some ("B/upload_personal_documents", "document_type", "ssn") := by
  decide

/-- C8: "start over" twice in a row: both invocations yield the freshly
initialized state — empty transcript in the chat variant, every document
slot back to its not-uploaded status in the form variant — regardless of
the prior state. -/
theorem C8_reset_idempotent (s : Session) (t : AppState)
    (hs : s.app_started = true) :
    step s .reset = initSession ∧
    step (step s .reset) .reset = initSession ∧
    (step s .reset).messages = [] ∧
    (step (step s .reset) .reset).messages = [] ∧
    app_reset t = initAppState ∧
    app_reset (app_reset t) = initAppState ∧
    (app_reset t).driving_license.status = "Not Uploaded" ∧
    (app_reset t).ssn.status = "Not Uploaded" ∧
    (app_reset t).bank_appl.status = "Not Uploaded" ∧
    (app_reset t).bank_stmt.status = "Not Uploaded" := by
  have h1 : step s .reset = initSession := by simp [step, hs]
  refine ⟨h1, ?_, ?_, ?_, rfl, rfl, rfl, rfl, rfl, rfl⟩ <;> rw [h1] <;> rfl

/-- C8 witness: double reset after a failed upload. -/
theorem C8_reset_idempotent_witness :
    (step startedSession (.upload "f.pdf" false "bad")).app_started = true ∧
    (step (step startedSession (.upload "f.pdf" false "bad")) .reset = initSession ∧
     step (step (step startedSession (.upload "f.pdf" false "bad")) .reset) .reset =
       initSession ∧
     (step (step startedSession (.upload "f.pdf" false "bad")) .reset).messages = [] ∧
     (step (step (step startedSession (.upload "f.pdf" false "bad")) .reset)
         .reset).messages = [] ∧
     app_reset initAppState = initAppState ∧
     app_reset (app_reset initAppState) = initAppState ∧
     (app_reset initAppState).driving_license.status = "Not Uploaded" ∧
     (app_reset initAppState).ssn.status = "Not Uploaded" ∧
     (app_reset initAppState).bank_appl.status = "Not Uploaded" ∧
     (app_reset initAppState).bank_stmt.status = "Not Uploaded") :=
  ⟨rfl,
   C8_reset_idempotent (step startedSession (.upload "f.pdf" false "bad"))
     initAppState rfl⟩

/-- C9: the outbound chatbot request is a function of the submitted
prompt alone — two sessions with different transcripts produce the same
payload for the same prompt, because `get_chatbot_response` never reads
the transcript. -/
theorem C9_chat_payload_stateless (s t : Session) (p : String)
    (_h : s.messages ≠ t.messages) :
    outbound_chat_request s p = outbound_chat_request t p := rfl

/-- C9 witness: the empty-transcript session and the started session
yield the same outbound payload for the same prompt. -/
theorem C9_chat_payload_stateless_witness :
    initSession.messages ≠ startedSession.messages ∧
    outbound_chat_request initSession "What is the verdict?" =
      outbound_chat_request startedSession "What is the verdict?" :=
  ⟨by decide,
   C9_chat_payload_stateless initSession startedSession "What is the verdict?"
     (by decide)⟩

/-- C10: when the response passes `raise_for_status` with status 200 and
its JSON `success` field holds a truthy value equal to neither `True`
nor `False`, the chat-variant `upload_file` returns `None` instead of a
(boolean, message) pair. -/
theorem C10_truthy_nonbool_returns_none (doc_type api : String)
    (r : HttpResp) (j v : Json)
    (hapi : api = "personal" ∨ api = "bank")
    (hst : r.status = 200)
    (hb : r.body = .ok j)
    (hf : j.getField "success" = .ok v)
    (_htruthy : v.truthy = true)
    (hT : v.pyEqTrue = false)
    (hF : v.pyEqFalse = false) :
    upload_file doc_type api (.resp r) = none := by
  have hraise : raisesForStatus r.status = false := by
    rw [hst]; rfl
  simp [upload_file, hapi, hraise, hb, hf, hT, hF]

/-- C10 witness: the truthy string "yes" in the success field. -/
theorem C10_truthy_nonbool_returns_none_witness :
    truthyStrResp.status = 200 ∧
    truthyStrResp.body = .ok (.obj [("success", .str "yes")]) ∧
    (Json.obj [("success", .str "yes")]).getField "success" =
      .ok (.str "yes") ∧
    (Json.str "yes").truthy = true ∧
    (Json.str "yes").pyEqTrue = false ∧
    (Json.str "yes").pyEqFalse = false ∧
    upload_file "bank_application" "bank" (.resp truthyStrResp) = none :=
  ⟨rfl, rfl, rfl, rfl, rfl, rfl,
   C10_truthy_nonbool_returns_none "bank_application" "bank" truthyStrResp
     (.obj [("success", .str "yes")]) (.str "yes")
     (Or.inr rfl) rfl rfl rfl rfl rfl rfl⟩

end Underwriting
